import Mathlib

/-!
# The export shim `android/app/src/main/cpp/llama_wrapper.cpp`

The repository's only source file is a ten-line C++ translation unit with no
function in it.  There is therefore nothing to embed as a Lean function; what
is embedded is the file itself, line by line, together with a small front end
for it that follows the C++ translation phases:

* `stripComments` replaces every comment by one blank (phase 3),
* `elements` cuts the comment-free text into preprocessing directives and
  tokens (phases 3 and 4, the directives are kept, not executed),
* `parse` groups the tokens into top-level items: directives, linkage
  specifications `extern "lang" { ... }` and declarations,
* `declarations` lists the declarations of the items, those in class bodies
  included, each with the language linkage of the name it introduces.

The properties of the shim are then properties of the item list `parse`
returns for the file.  Everything is computable, and the analyses are written
for arbitrary input, so each of them can be run on other texts as well
(see the `probe` checks below).

The analyses classify declarations by their tokens, without looking names up.
Where C++ itself needs a name lookup to tell a variable from a function
(`Foo foo(bar);`), the declaration is taken for a variable.  The statements
about the shim do not rest on the classification alone: they say that the
file holds no declaration at all.

The header named by the `#include` line belongs to the wrapped library and is
not part of the repository; the items are those of the file's own text.
-/

namespace LlamaWrapper

/-! ## The source file -/

/-- The lines of `llama_wrapper.cpp`, verbatim, in order.  The file does not end
with a newline character, so its text is these lines joined by newlines. -/
def llama_wrapper_cpp : List String :=
  [ "// Simple wrapper to ensure llama library symbols are properly exported"
  , "// This file exists to create a shared library that links against llama"
  , "#include \"llama.cpp/include/llama.h\""
  , ""
  , "// Intentionally empty - the actual library linking happens via CMakeLists.txt"
  , "// This file just ensures the wrapper library gets created properly"
  , "extern \"C\" \x7b"
  , "    // The llama symbols from llama.cpp are automatically exported"
  , "    // because we link against the llama library in CMakeLists.txt"
  , "\x7d" ]

/-- Text of a file given by its lines: the lines joined by newline characters. -/
def textOf : List String → List Char
  | [] => []
  | [l] => l.data
  | l :: ls => l.data ++ '\n' :: textOf ls

/-! ## Comments -/

/-- State of the comment scanner. -/
inductive Mode
  | code          -- ordinary text
  | slash         -- a `/` was read in ordinary text and is still pending
  | lineComment   -- inside `// ...`
  | blockComment  -- inside `/* ... */`
  | blockStar     -- inside `/* ... */`, the last character was `*`
  | str           -- inside a string literal
  | strEsc        -- inside a string literal, right after a backslash
  deriving DecidableEq, Repr

/-- One character of comment scanning: the next state and the characters that
remain in the text. -/
def stripStep (m : Mode) (c : Char) : Mode × List Char :=
  match m with
  | .code =>
      if c = '/' then (.slash, [])
      else if c = '"' then (.str, [c])
      else (.code, [c])
  | .slash =>
      if c = '/' then (.lineComment, [' '])
      else if c = '*' then (.blockComment, [' '])
      else if c = '"' then (.str, ['/', c])
      else (.code, ['/', c])
  | .lineComment =>
      if c = '\n' then (.code, [c]) else (.lineComment, [])
  | .blockComment =>
      if c = '*' then (.blockStar, [])
      else if c = '\n' then (.blockComment, [c])
      else (.blockComment, [])
  | .blockStar =>
      if c = '/' then (.code, [])
      else if c = '*' then (.blockStar, [])
      else if c = '\n' then (.blockComment, [c])
      else (.blockComment, [])
  | .str =>
      if c = '\\' then (.strEsc, [c])
      else if c = '"' then (.code, [c])
      else if c = '\n' then (.code, [c])
      else (.str, [c])
  | .strEsc => (.str, [c])

/-- The text with every comment replaced by a blank.  Newlines are kept, so
the line structure of the file survives. -/
def stripFrom : Mode → List Char → List Char
  | .slash, [] => ['/']
  | _, [] => []
  | m, c :: cs => (stripStep m c).2 ++ stripFrom (stripStep m c).1 cs

/-- Comment removal, started in ordinary text. -/
def stripComments (text : List Char) : List Char :=
  stripFrom .code text

/-- The number of comments of a text: the openings `//` and `/*` met in
ordinary text. -/
def countComments : Mode → List Char → Nat
  | _, [] => 0
  | m, c :: cs =>
      (if m = .slash ∧ (c = '/' ∨ c = '*') then 1 else 0)
        + countComments (stripStep m c).1 cs

/-! ## Lines and tokens -/

/-- Cut a text at its newline characters. -/
def splitLines : List Char → List (List Char)
  | [] => [[]]
  | c :: cs =>
      match splitLines cs with
      | [] => [[c]]
      | l :: ls => if c = '\n' then [] :: l :: ls else (c :: l) :: ls

/-- A preprocessing token, as far as this file needs them told apart. -/
inductive Token
  | word (s : String)    -- identifier, keyword or number
  | lit (s : String)     -- string literal, without its quotes
  | punct (c : Char)     -- any other character that is not white space
  deriving DecidableEq, Repr

/-- Characters of identifiers, keywords and numbers. -/
def isWordChar (c : Char) : Bool :=
  c.isAlphanum || c = '_'

/-- White space inside a line. -/
def isBlank (c : Char) : Bool :=
  c = ' ' || c = '\t' || c = '\r' || c = '\n'

/-- State of the tokenizer inside one line. -/
inductive LexState
  | idle                            -- between tokens
  | inWord (acc : List Char)        -- the characters of the word so far, reversed
  | inLit (acc : List Char)         -- the characters of the literal so far, reversed
  | inLitEsc (acc : List Char)      -- the same, right after a backslash
  deriving DecidableEq, Repr

/-- One character of tokenizing: the next state and the tokens completed. -/
def lexStep (s : LexState) (c : Char) : LexState × List Token :=
  match s with
  | .idle =>
      if isWordChar c then (.inWord [c], [])
      else if c = '"' then (.inLit [], [])
      else if isBlank c then (.idle, [])
      else (.idle, [.punct c])
  | .inWord acc =>
      if isWordChar c then (.inWord (c :: acc), [])
      else if c = '"' then (.inLit [], [.word (String.mk acc.reverse)])
      else if isBlank c then (.idle, [.word (String.mk acc.reverse)])
      else (.idle, [.word (String.mk acc.reverse), .punct c])
  | .inLit acc =>
      if c = '\\' then (.inLitEsc (c :: acc), [])
      else if c = '"' then (.idle, [.lit (String.mk acc.reverse)])
      else (.inLit (c :: acc), [])
  | .inLitEsc acc => (.inLit (c :: acc), [])

/-- Tokens still pending when a line ends. -/
def lexFlush : LexState → List Token
  | .idle => []
  | .inWord acc => [.word (String.mk acc.reverse)]
  | .inLit acc => [.lit (String.mk acc.reverse)]
  | .inLitEsc acc => [.lit (String.mk acc.reverse)]

/-- The tokens of one comment-free line. -/
def lexFrom : LexState → List Char → List Token
  | s, [] => lexFlush s
  | s, c :: cs => (lexStep s c).2 ++ lexFrom (lexStep s c).1 cs

/-- Tokens of a line, started between tokens. -/
def lexLine (line : List Char) : List Token :=
  lexFrom .idle line

/-- What the parser reads: a whole preprocessing directive, or one token of
ordinary text. -/
inductive Element
  | directive (toks : List Token)
  | token (t : Token)
  deriving DecidableEq, Repr

/-- The elements of one comment-free line: a line whose first token is `#` is a
directive, every other line gives its tokens one by one. -/
def lineElements (line : List Char) : List Element :=
  match lexLine line with
  | .punct '#' :: rest => [.directive (.punct '#' :: rest)]
  | toks => toks.map .token

/-- The elements of a file given by its lines. -/
def elements (src : List String) : List Element :=
  ((splitLines (stripComments (textOf src))).map lineElements).flatten

/-! ## The shape of a declaration -/

/-- The keywords of C++; a word that is one of them is not an identifier. -/
def keywords : List String :=
  [ "alignas", "alignof", "and", "and_eq", "asm", "auto", "bitand", "bitor", "bool",
    "break", "case", "catch", "char", "char8_t", "char16_t", "char32_t", "class",
    "compl", "concept", "const", "consteval", "constexpr", "constinit", "const_cast",
    "continue", "co_await", "co_return", "co_yield", "decltype", "default", "delete",
    "do", "double", "dynamic_cast", "else", "enum", "explicit", "export", "extern",
    "false", "float", "for", "friend", "goto", "if", "inline", "int", "long", "mutable",
    "namespace", "new", "noexcept", "not", "not_eq", "nullptr", "operator", "or",
    "or_eq", "private", "protected", "public", "register", "reinterpret_cast",
    "requires", "return", "short", "signed", "sizeof", "static", "static_assert",
    "static_cast", "struct", "switch", "template", "this", "thread_local", "throw",
    "true", "try", "typedef", "typeid", "typename", "union", "unsigned", "using",
    "virtual", "void", "volatile", "wchar_t", "while", "xor", "xor_eq",
    "__attribute__", "__declspec" ]

/-- A word that starts with a digit is a number. -/
def isNumber (s : String) : Bool :=
  match s.data with
  | c :: _ => c.isDigit
  | [] => false

/-- The identifier a token is, if it is one. -/
def identifierOf : Token → Option String
  | .word s => if isNumber s || keywords.contains s then none else some s
  | _ => none

/-- The identifiers among some tokens, in order. -/
def identifiers (toks : List Token) : List String :=
  toks.filterMap identifierOf

/-- State of the scan that leaves out what does not belong to the declarator. -/
inductive SkipState
  | plain                    -- ordinary tokens
  | specifier                -- after `alignas`, `__attribute__` or `__declspec`
  | group (depth : Nat)      -- inside the parentheses of such a specifier, `depth + 1` open
  | operatorName             -- after `operator`, no symbol of the operator read yet
  | operatorCall             -- after `operator (`
  | operatorRest             -- after `operator` and at least one symbol of the operator
  deriving DecidableEq, Repr

/-- The tokens of a declaration without attribute and alignment specifiers and
with the symbols of an operator name removed (`operator==` becomes `operator`),
so that their parentheses and equals signs are not taken for those of the
declarator. -/
def significantFrom : SkipState → List Token → List Token
  | _, [] => []
  | .plain, t :: ts =>
      if t = .word "alignas" ∨ t = .word "__attribute__" ∨ t = .word "__declspec" then
        significantFrom .specifier ts
      else if t = .word "operator" then t :: significantFrom .operatorName ts
      else t :: significantFrom .plain ts
  | .specifier, t :: ts =>
      if t = .punct '(' then significantFrom (.group 0) ts
      else t :: significantFrom .plain ts
  | .group depth, t :: ts =>
      if t = .punct '(' then significantFrom (.group (depth + 1)) ts
      else if t = .punct ')' then
        match depth with
        | 0 => significantFrom .plain ts
        | d + 1 => significantFrom (.group d) ts
      else significantFrom (.group depth) ts
  | .operatorName, t :: ts =>
      match t with
      | .punct c =>
          if c = '(' then significantFrom .operatorCall ts
          else significantFrom .operatorRest ts
      | _ => t :: significantFrom .plain ts
  | .operatorCall, t :: ts =>
      if t = .punct ')' then significantFrom .operatorRest ts
      else .punct '(' :: t :: significantFrom .plain ts
  | .operatorRest, t :: ts =>
      match t with
      | .punct c =>
          if c = '(' then t :: significantFrom .plain ts
          else significantFrom .operatorRest ts
      | _ => t :: significantFrom .plain ts

/-- The significant tokens of a declaration. -/
def significant (toks : List Token) : List Token :=
  significantFrom .plain toks

/-- The tokens outside every pair of parentheses, brackets and braces; of each
outermost pair the two delimiters are kept and the content is dropped. -/
def outlineFrom : Nat → List Token → List Token
  | _, [] => []
  | depth, .punct c :: ts =>
      if c = '(' ∨ c = '[' ∨ c = '{' then
        if depth = 0 then .punct c :: outlineFrom 1 ts else outlineFrom (depth + 1) ts
      else if c = ')' ∨ c = ']' ∨ c = '}' then
        if depth ≤ 1 then .punct c :: outlineFrom 0 ts else outlineFrom (depth - 1) ts
      else if depth = 0 then .punct c :: outlineFrom 0 ts
      else outlineFrom depth ts
  | depth, t :: ts =>
      if depth = 0 then t :: outlineFrom 0 ts else outlineFrom depth ts

/-- The outline of a declaration: its significant tokens at nesting depth 0.
For `int (*fp)(int) = 0;` it is `int ( ) ( ) = 0 ;`. -/
def outline (toks : List Token) : List Token :=
  outlineFrom 0 (significant toks)

/-- The first punctuation character of the tokens that is one of `cs`. -/
def firstOf (cs : List Char) : List Token → Option Char
  | [] => none
  | .punct c :: ts => if cs.contains c then some c else firstOf cs ts
  | _ :: ts => firstOf cs ts

/-- The tokens before the first punctuation character that is one of `cs`. -/
def before (cs : List Char) : List Token → List Token
  | [] => []
  | .punct c :: ts => if cs.contains c then [] else .punct c :: before cs ts
  | t :: ts => t :: before cs ts

/-- The tokens after the first punctuation character that is one of `cs`. -/
def after (cs : List Char) : List Token → List Token
  | [] => []
  | .punct c :: ts => if cs.contains c then ts else after cs ts
  | _ :: ts => after cs ts

/-- The first parenthesis, opening brace, equals sign or semicolon of the
outline of a declaration.  It tells a declarator with parentheses from a class
body or a braced initializer and from an initializer with an equals sign. -/
def firstBreak (toks : List Token) : Option Char :=
  firstOf ['(', '{', '=', ';'] (outline toks)

/-- The head of a declaration: its outline up to the first parenthesis,
opening brace, equals sign or semicolon. -/
def headOf (toks : List Token) : List Token :=
  before ['(', '{', '=', ';'] (outline toks)

/-- Does a class key (`struct`, `class`, `union`, `enum`) occur among the tokens? -/
def hasClassKey (toks : List Token) : Bool :=
  toks.any fun t => t = .word "struct" ∨ t = .word "class" ∨ t = .word "union" ∨ t = .word "enum"

/-- A function definition: a declarator with a parameter list, followed by a
body with no equals sign in between. -/
def isFunctionDefinition (toks : List Token) : Bool :=
  firstBreak toks = some '(' && firstOf ['{', '='] (outline toks) = some '{'

/-- The definition of a class or an enumeration: a class key, then a body. -/
def isClassDefinition (toks : List Token) : Bool :=
  firstBreak toks = some '{' && hasClassKey (headOf toks)

/-! ## Items -/

/-- A top-level construct of a translation unit.  A block is a brace-enclosed
group of items introduced by a linkage specification (`extern "C"`) or by a
namespace head; a declaration is kept as its tokens, up to and including the
semicolon or closing brace that ends it. -/
inductive Item
  | directive (toks : List Token)
  | block (head : List Token) (body : List Item)
  | decl (toks : List Token)
  deriving Repr

/-- An enclosing block that is still open while parsing. -/
structure Frame where
  head : List Token      -- the head of the open block
  before : List Item     -- items of the enclosing level read so far, reversed
  deriving Repr

/-- Parser state. -/
structure PState where
  items : List Item      -- items completed at the current level, reversed
  cur : List Token       -- tokens of the declaration in progress, reversed
  depth : Nat            -- braces open inside the declaration in progress
  stack : List Frame     -- the open blocks, innermost first
  ok : Bool              -- no closing brace without an opening one so far
  deriving Repr

/-- The state before the first element. -/
def PState.init : PState :=
  { items := [], cur := [], depth := 0, stack := [], ok := true }

/-- Does a declaration head (tokens in order) open a block of items?  True for
`extern "lang"` and for `namespace`, `namespace N`, `inline namespace N`. -/
def opensBlock : List Token → Bool
  | [.word "extern", .lit _] => true
  | .word "namespace" :: _ => true
  | .word "inline" :: .word "namespace" :: _ => true
  | _ => false

/-- Finish the declaration in progress, if there is one. -/
def PState.flush (st : PState) : PState :=
  match st.cur with
  | [] => st
  | _ :: _ => { st with items := .decl st.cur.reverse :: st.items, cur := [], depth := 0 }

/-- One token of parsing. -/
def parseToken (st : PState) (t : Token) : PState :=
  if st.depth > 0 then
    -- inside the braces of a declaration: a function body, a class body, an initializer
    if t = .punct '{' then { st with cur := t :: st.cur, depth := st.depth + 1 }
    else if t = .punct '}' then
      if st.depth = 1 ∧ isFunctionDefinition (t :: st.cur).reverse then
        -- the closing brace of a function body ends the definition
        { st with items := .decl (t :: st.cur).reverse :: st.items, cur := [], depth := 0 }
      else { st with cur := t :: st.cur, depth := st.depth - 1 }
    else { st with cur := t :: st.cur }
  else if t = .punct '{' then
    if opensBlock st.cur.reverse then
      { st with items := [], cur := [],
                stack := { head := st.cur.reverse, before := st.items } :: st.stack }
    else { st with cur := t :: st.cur, depth := 1 }
  else if t = .punct '}' then
    match st.flush.stack with
    | [] => { st with ok := false }
    | f :: fs =>
        { st.flush with items := .block f.head st.flush.items.reverse :: f.before, stack := fs }
  else if t = .punct ';' then
    { st with items := .decl (t :: st.cur).reverse :: st.items, cur := [] }
  else { st with cur := t :: st.cur }

/-- One element of parsing: a directive becomes an item of the current level,
a token goes to `parseToken`. -/
def parseStep (st : PState) : Element → PState
  | .directive toks => { st with items := .directive toks :: st.items }
  | .token t => parseToken st t

/-- The items of an element sequence; `none` when braces do not match or the
text ends inside a declaration. -/
def parse (es : List Element) : Option (List Item) :=
  let st := es.foldl parseStep PState.init
  if st.ok ∧ st.stack.isEmpty ∧ st.cur.isEmpty ∧ st.depth = 0 then some st.items.reverse
  else none

/-- The items of a file given by its lines. -/
def parseFile (src : List String) : Option (List Item) :=
  parse (elements src)

/-! ## What a declaration declares -/

/-- Does the first token belong to the given words? -/
def startsWithAny (ws : List String) : List Token → Bool
  | .word s :: _ => ws.contains s
  | _ => false

/-- Declarations that name neither a function nor a variable whatever follows:
typedefs, using-declarations and aliases, namespace aliases, static assertions,
friend declarations, assembler blocks. -/
def isSpecial (toks : List Token) : Bool :=
  startsWithAny ["typedef", "using", "namespace", "static_assert", "friend", "asm"] (outline toks)

/-- The contents of the outermost pairs of parentheses, in order. -/
def parenGroupsFrom : Nat → List Token → List Token → List (List Token)
  | _, _, [] => []
  | depth, acc, .punct c :: ts =>
      if c = '(' then
        if depth = 0 then parenGroupsFrom 1 [] ts
        else parenGroupsFrom (depth + 1) (.punct c :: acc) ts
      else if c = ')' then
        if depth ≤ 1 then acc.reverse :: parenGroupsFrom 0 [] ts
        else parenGroupsFrom (depth - 1) (.punct c :: acc) ts
      else if depth = 0 then parenGroupsFrom 0 [] ts
      else parenGroupsFrom depth (.punct c :: acc) ts
  | depth, acc, t :: ts =>
      if depth = 0 then parenGroupsFrom 0 [] ts else parenGroupsFrom depth (t :: acc) ts

/-- The contents of the outermost pairs of parentheses of a declaration. -/
def parenGroups (toks : List Token) : List (List Token) :=
  parenGroupsFrom 0 [] (significant toks)

/-- Words that can only start a parameter declaration, never an expression. -/
def typeWords : List String :=
  [ "void", "bool", "char", "char8_t", "char16_t", "char32_t", "wchar_t", "short", "int",
    "long", "float", "double", "signed", "unsigned", "const", "volatile", "struct", "class",
    "union", "enum", "typename", "auto" ]

/-- Two identifiers in a row (`llama_context ctx`): a type and a parameter name,
no expression starts so. -/
def startsWithTwoNames : List Token → Bool
  | a :: b :: _ => (identifierOf a).isSome && (identifierOf b).isSome
  | _ => false

/-- An identifier, then stars or ampersands, then the end or a comma
(`llama_context *`): a parameter without name, no expression ends so. -/
def startsWithUnnamedPointer : List Token → Bool
  | a :: .punct c :: rest =>
      (identifierOf a).isSome && (c = '*' || c = '&')
        && (match rest.dropWhile fun t => t = .punct '*' || t = .punct '&' with
            | [] => true
            | t :: _ => t = .punct ',')
  | _ => false

/-- Is the content of a pair of parentheses certainly a parameter list: empty,
an ellipsis, or starting as only a parameter declaration can start? -/
def isParameterList (g : List Token) : Bool :=
  g.isEmpty || g = [.punct '.', .punct '.', .punct '.'] || startsWithAny typeWords g
    || startsWithTwoNames g || startsWithUnnamedPointer g

/-- Is the content of a pair of parentheses a pointer or reference declarator,
as in `int (*fp)(int)`? -/
def isPointerDeclarator : List Token → Bool
  | .punct c :: _ => c = '*' || c = '&'
  | _ => false

/-- Does the declaration return `void`?  Then it cannot be a variable. -/
def returnsVoid (toks : List Token) : Bool :=
  (headOf toks).contains (.word "void") && !(headOf toks).contains (.punct '*')

/-- For a declaration without body whose declarator has parentheses: is it a
variable rather than a function?  It is one when the first parentheses hold a
pointer declarator (`int (*fp)(int);`) or hold what is not certainly a
parameter list (`Foo foo(1, 2);`, `int n(f(0));`).  C++ decides the last case
by looking the names up; where the tokens do not decide, the declaration is
taken for a variable, so that state is rather counted than missed. -/
def isParenthesisedVariable (toks : List Token) : Bool :=
  match parenGroups toks with
  | g :: _ => isPointerDeclarator g || !(isParameterList g || returnsVoid toks)
  | [] => false

/-- Is the function deleted or defaulted (`= delete`, `= default`)? -/
def isDeletedOrDefaulted (toks : List Token) : Bool :=
  startsWithAny ["delete", "default"] (after ['='] (outline toks))

/-- An `extern` declaration without initializer: it declares, and defines nothing. -/
def isExternDeclaration (toks : List Token) : Bool :=
  startsWithAny ["extern"] (outline toks) && firstOf ['=', '{'] (outline toks) = none

/-- A declaration that only names a class or enumeration (`struct S;`). -/
def isForwardDeclaration (toks : List Token) : Bool :=
  firstBreak toks = some ';' && hasClassKey (headOf toks) && (identifiers (headOf toks)).length ≤ 1

/-- A declaration that defines a variable at namespace scope:
* with an initializer after an equals sign (`int x = 1;`, `int (*fp)(int) = 0;`),
* with a braced initializer (`int x{1};`),
* a class or enumeration definition followed by a declarator (`struct S {..} s;`),
* with parentheses that are not a parameter list (`Foo foo(1, 2);`),
* without initializer (`int x;`, `alignas(16) int buf[4];`),
and that is not an `extern` declaration, a typedef or the like. -/
def isVariableDefinition (toks : List Token) : Bool :=
  !isSpecial toks && !isFunctionDefinition toks && !isDeletedOrDefaulted toks
    && !isExternDeclaration toks
    && (match firstBreak toks with
        | some '=' => true
        | some '{' =>
            if hasClassKey (headOf toks) then !(identifiers (after ['}'] (outline toks))).isEmpty
            else true
        | some ';' => !(identifiers (headOf toks)).isEmpty && !isForwardDeclaration toks
        | some '(' =>
            firstOf ['=', '{'] (outline toks) = some '=' || isParenthesisedVariable toks
        | _ => false)

/-- A declaration of a variable that is defined elsewhere (`extern int x;`). -/
def isVariableDeclaration (toks : List Token) : Bool :=
  !isSpecial toks && isExternDeclaration toks && firstBreak toks = some ';'
    && !(identifiers (headOf toks)).isEmpty

/-- A function declaration without body (a prototype). -/
def isFunctionDeclaration (toks : List Token) : Bool :=
  !isSpecial toks && firstBreak toks = some '(' && !isFunctionDefinition toks
    && !isVariableDefinition toks

/-- A declaration that defines a type: a typedef, an alias, or a class or
enumeration with a body. -/
def isTypeDefinition (toks : List Token) : Bool :=
  startsWithAny ["typedef"] (outline toks)
    || (startsWithAny ["using"] (outline toks) && firstBreak toks = some '=')
    || isClassDefinition toks

/-- Does the declaration name a function or a variable? -/
def namesEntity (toks : List Token) : Bool :=
  isFunctionDefinition toks || isFunctionDeclaration toks
    || isVariableDefinition toks || isVariableDeclaration toks

/-- Is the object declared constant itself (`const int x`, `char * const p`,
`constexpr`), not merely a pointer to something constant (`const char * p`)? -/
def isConstObject (toks : List Token) : Bool :=
  (headOf toks).contains (.word "constexpr")
    || ((headOf toks).reverse.takeWhile fun t => t != .punct '*' && t != .punct '&').contains
        (.word "const")

/-- Does the name have internal linkage?  So it is for a name declared
`static`, and for a constant variable that is not declared `extern`. -/
def isInternal (toks : List Token) : Bool :=
  (headOf toks).contains (.word "static")
    || (isVariableDefinition toks && isConstObject toks
          && !startsWithAny ["extern"] (outline toks))

/-- Is the declared name, the last word of the reversed head given, qualified
by a class or namespace (`S::f`)? -/
def endsQualified : List Token → Bool
  | .word _ :: .punct ':' :: .punct ':' :: _ => true
  | .punct _ :: ts => endsQualified ts
  | _ => false

/-- Does the declaration declare a name qualified by a class, as the definition
of a class member outside its class does (`int S::f() {..}`)? -/
def isQualified (toks : List Token) : Bool :=
  endsQualified (headOf toks).reverse

/-- The identifiers among some tokens, the word `operator` counted as one: an
operator function is listed under that word. -/
def names (toks : List Token) : List String :=
  toks.filterMap fun t => if t = .word "operator" then some "operator" else identifierOf t

/-- The name a declaration of a function or variable introduces: the name in
a pointer declarator (`int (*fp)(int)`), the name after the body of a class
definition (`struct S {..} s;`), the last name before the equals sign of an
initializer, or else the last name of the head. -/
def declaredName (toks : List Token) : Option String :=
  match firstBreak toks, parenGroups toks with
  | some '(', g :: _ =>
      if isPointerDeclarator g then (identifiers g).head?
      else if !isFunctionDefinition toks && firstOf ['=', '{'] (outline toks) = some '=' then
        (names (before ['='] (outline toks))).getLast?
      else (names (headOf toks)).getLast?
  | some '{', _ =>
      if hasClassKey (headOf toks) then (identifiers (after ['}'] (outline toks))).head?
      else (identifiers (headOf toks)).getLast?
  | _, _ => (identifiers (headOf toks)).getLast?

/-- The name a type definition introduces. -/
def typeName (toks : List Token) : Option String :=
  (identifiers (headOf toks)).getLast?

/-- The code of a declaration: its significant tokens from the first
parenthesis, opening brace, equals sign or semicolon on; for a class definition
with a declarator, the tokens after the class body. -/
def codeOf (toks : List Token) : List Token :=
  if isClassDefinition toks then (toks.reverse.takeWhile fun t => t != .punct '}').reverse
  else (significant toks).drop (before ['(', '{', '=', ';'] (significant toks)).length

/-! ## Declarations and their linkage -/

/-- The linkage specification a declaration carries itself (`extern "C" int f();`). -/
def ownLinkage : List Token → Option String
  | .word "extern" :: .lit lang :: _ => some lang
  | _ => none

/-- The language linkage a block head puts in force: that of a linkage
specification, and the enclosing one for a namespace. -/
def blockLinkage (enclosing : String) : List Token → String
  | [.word "extern", .lit lang] => lang
  | _ => enclosing

/-- The language linkage of the name a declaration introduces, after the rules
of C++ for linkage specifications:
* only functions and variables with external linkage have one (names in an
  unnamed namespace have none either, see `declsOf`),
* the name of a class member has C++ linkage whatever encloses it,
* else the innermost linkage specification decides: the one the declaration
  carries itself, or the one in force around it. -/
def declLinkage (enclosing : String) (toks : List Token) : Option String :=
  if !namesEntity toks || isInternal toks then none
  else if isQualified toks then some "C++"
  else some ((ownLinkage toks).getD enclosing)

/-- A declaration: its tokens, whether it stands in the body of a class, and
the language linkage of the name it introduces. -/
structure Decl where
  linkage : Option String
  member : Bool
  toks : List Token
  deriving DecidableEq, Repr

/-- The tokens between the first opening brace and the last closing brace. -/
def bodyOf (toks : List Token) : List Token :=
  (((toks.dropWhile fun t => t != .punct '{').drop 1).reverse.dropWhile
    fun t => t != .punct '}').drop 1 |>.reverse

/-- The declarations in the body of a class definition, as token lists. -/
def memberTokens (toks : List Token) : List (List Token) :=
  if isClassDefinition toks && !(headOf toks).contains (.word "enum") then
    (((bodyOf toks).map .token).foldl parseStep PState.init).flush.items.reverse.filterMap
      fun i =>
        match i with
        | .decl m => some m
        | _ => none
  else []

/-- Is the block an unnamed namespace?  The names declared in one have
internal linkage. -/
def isUnnamedNamespace : List Token → Bool
  | [.word "namespace"] => true
  | [.word "inline", .word "namespace"] => true
  | _ => false

/-- A declaration at namespace scope and, for a class definition, the
declarations of its members.  `enclosing` is the language linkage in force,
`unnamed` tells whether an unnamed namespace encloses the declaration, which
leaves no name in it with a language linkage. -/
def declsOf (enclosing : String) (unnamed : Bool) (toks : List Token) : List Decl :=
  { linkage := if unnamed then none else declLinkage enclosing toks
    member := false, toks := toks }
    :: (memberTokens toks).map fun m =>
        { linkage := if namesEntity m && !unnamed then some "C++" else none
          member := true, toks := m }

mutual
/-- The declarations of an item, blocks entered, each with its linkage. -/
def Item.decls (enclosing : String) (unnamed : Bool) : Item → List Decl
  | .directive _ => []
  | .block head body =>
      Item.declsList (blockLinkage enclosing head) (unnamed || isUnnamedNamespace head) body
  | .decl toks => declsOf enclosing unnamed toks
/-- The declarations of an item list, blocks entered, each with its linkage. -/
def Item.declsList (enclosing : String) (unnamed : Bool) : List Item → List Decl
  | [] => []
  | i :: is => Item.decls enclosing unnamed i ++ Item.declsList enclosing unnamed is
end

/-- All declarations of a translation unit.  Outside every linkage
specification the linkage is C++. -/
def declarations (tu : List Item) : List Decl :=
  Item.declsList "C++" false tu

mutual
/-- The directives of an item, blocks entered. -/
def Item.directives : Item → List (List Token)
  | .directive toks => [toks]
  | .block _ body => Item.directivesList body
  | .decl _ => []
/-- The directives of an item list, blocks entered. -/
def Item.directivesList : List Item → List (List Token)
  | [] => []
  | i :: is => Item.directives i ++ Item.directivesList is
end

mutual
/-- The heads of the blocks of an item, nested blocks included. -/
def Item.blocks : Item → List (List Token)
  | .directive _ => []
  | .block head body => head :: Item.blocksList body
  | .decl _ => []
/-- The heads of the blocks of an item list, nested blocks included. -/
def Item.blocksList : List Item → List (List Token)
  | [] => []
  | i :: is => Item.blocks i ++ Item.blocksList is
end

/-- The file named by an include directive. -/
def includePath : List Token → Option String
  | [.punct '#', .word "include", .lit path] => some path
  | _ => none

/-- The languages of the linkage-specification blocks of a translation unit. -/
def linkageBlocks (tu : List Item) : List String :=
  (Item.blocksList tu).filterMap fun head =>
    match head with
    | [.word "extern", .lit lang] => some lang
    | _ => none

/-! ## What a translation unit defines -/

/-- The function definitions of a translation unit, member functions defined
in a class body included. -/
def functionDefinitions (tu : List Item) : List Decl :=
  (declarations tu).filter fun d => isFunctionDefinition d.toks

/-- The type definitions of a translation unit. -/
def typeDefinitions (tu : List Item) : List Decl :=
  (declarations tu).filter fun d => isTypeDefinition d.toks

/-- The variable definitions of a translation unit: its state.  The data
members of a class are no variables. -/
def variableDefinitions (tu : List Item) : List Decl :=
  (declarations tu).filter fun d => !d.member && isVariableDefinition d.toks

/-- The names the translation unit itself defines, hence the symbols it can add
to a library it is linked into.  Names with internal linkage are not left out,
and a definition whose name the tokens do not show is listed as `?`. -/
def definedSymbols (tu : List Item) : List String :=
  (functionDefinitions tu ++ variableDefinitions tu).map fun d =>
    (declaredName d.toks).getD "?"

/-! ## Code -/

/-- The code that runs when a function of the translation unit is called: the
parameters and body of each function definition, under the function's name. -/
def operations (tu : List Item) : List (String × List Token) :=
  (functionDefinitions tu).map fun d => ((declaredName d.toks).getD "?", codeOf d.toks)

/-- The code that may run when the library is loaded: of every variable
definition the initializer, or the semicolon where its type may have a
constructor to run. -/
def loadTimeCode (tu : List Item) : List (List Token) :=
  (variableDefinitions tu).map fun d => codeOf d.toks

/-- The executable code of a translation unit. -/
def executableCode (tu : List Item) : List (List Token) :=
  (operations tu).map Prod.snd ++ loadTimeCode tu

/-- The names called in some code: every identifier directly followed by `(`. -/
def callsIn : List Token → List String
  | [] => []
  | .word s :: .punct c :: ts =>
      if c = '(' ∧ (identifierOf (.word s)).isSome then s :: callsIn (.punct c :: ts)
      else callsIn (.punct c :: ts)
  | _ :: ts => callsIn ts

/-- The call expressions of a translation unit, by the name called. -/
def callExpressions (tu : List Item) : List String :=
  ((executableCode tu).map callsIn).flatten

/-- The identifiers a translation unit uses, in the heads of its blocks and in
its declarations (a class definition holds the tokens of its members). -/
def usedIdentifiers (tu : List Item) : List String :=
  ((Item.blocksList tu).map identifiers).flatten
    ++ (((declarations tu).filter fun d => !d.member).map fun d => identifiers d.toks).flatten

/-- The uses of symbols of a header, given the names the header declares. -/
def headerUses (header : List String) (tu : List Item) : List String :=
  (usedIdentifiers tu).filter fun n => header.contains n

/-- Run pieces of code in order from a state, for any meaning `exec` of a piece
of code; the first error stops the run. -/
def runAll {σ ε : Type} (exec : List Token → σ → Except ε σ) :
    List (List Token) → σ → Except ε σ
  | [], s => .ok s
  | c :: cs, s =>
      match exec c s with
      | .ok s1 => runAll exec cs s1
      | .error e => .error e

/-- Loading the library, as far as the translation unit is concerned: its
load-time code runs. -/
def load {σ ε : Type} (exec : List Token → σ → Except ε σ) (tu : List Item) (s : σ) :
    Except ε σ :=
  runAll exec (loadTimeCode tu) s

/-- Calling a function of the translation unit by name: `none` when it defines
no function of that name, else the run of its code. -/
def call {σ ε : Type} (exec : List Token → σ → Except ε σ) (tu : List Item)
    (name : String) (s : σ) : Option (Except ε σ) :=
  ((operations tu).lookup name).map fun body => exec body s

/-! ## The shim, and texts to check the analyses on -/

/-- The include directive of the shim, as tokens. -/
def includeLlamaH : List Token :=
  [.punct '#', .word "include", .lit "llama.cpp/include/llama.h"]

/-- The head of a linkage specification for C. -/
def externC : List Token :=
  [.word "extern", .lit "C"]

/-- The items of the shim with the declarations `ds` placed in its block, one
after the other; `shimWith []` is the shim as it is. -/
def shimWith (ds : List (List Token)) : List Item :=
  [.directive includeLlamaH, .block externC (ds.map .decl)]

/-- The text of the shim with the lines `extra` placed in its block, before
the line with the closing brace. -/
def shimWithLines (extra : List String) : List String :=
  llama_wrapper_cpp.take 9 ++ extra ++ llama_wrapper_cpp.drop 9

/-- The tokens of `int wrapper_version(void);`. -/
def wrapperVersion : List Token :=
  [.word "int", .word "wrapper_version", .punct '(', .word "void", .punct ')', .punct ';']

/-- The tokens of `extern "C++" int wrapper_version(void);`. -/
def wrapperVersionCxx : List Token :=
  .word "extern" :: .lit "C++" :: wrapperVersion

/-- A text that does have functions, types, state and calls, to check that the
front end and the analyses find them. -/
def probeText : List String :=
  [ "#include \"llama.cpp/include/llama.h\""
  , "extern \"C\" \x7b"
  , "    // a wrapper around an entry point of the library"
  , "    int wrapper_n_ctx(struct llama_context * ctx) \x7b return llama_n_ctx(ctx); \x7d"
  , "    int wrapper_calls = 0; /* state */"
  , "    void wrapper_free(struct llama_context * ctx);"
  , "    int wrapper_n_ctx_at_load(llama_n_ctx(0));"
  , "    struct wrapper \x7b int id(void); \x7d last;"
  , "    int wrapper::id(void) \x7b return 1; \x7d"
  , "    extern \"C++\" int wrapper_version(void);"
  , "\x7d"
  , "struct wrapper_state \x7b int loaded; \x7d;"
  , "static bool ready = llama_supports_mmap();"
  , "const int wrapper_abi = 1;"
  , "namespace \x7b int hidden(void); \x7d" ]

/-- Declarations whose parentheses, attributes or class bodies hide that they
define a variable. -/
def variableForms : List String :=
  [ "static Foo foo(1, 2);"
  , "int n(f(0));"
  , "int (*fp)(int) = 0;"
  , "int (*fp)(int);"
  , "alignas(16) int buf[4];"
  , "__attribute__((visibility(\"default\"))) int x;"
  , "struct S \x7b int a; \x7d s;"
  , "int x\x7b5\x7d;"
  , "std::function<void()> cb = [] \x7b run(); \x7d;" ]

/-- Declarations that define no variable. -/
def otherForms : List String :=
  [ "int f(void);"
  , "void g(llama_context * ctx);"
  , "int h(llama_context ctx, int n);"
  , "extern int e;"
  , "struct T;"
  , "typedef int (*cb)(int);"
  , "using namespace std;"
  , "static_assert(sizeof(int) == 4, \"int\");"
  , "int add(int a, int b) \x7b return a + b; \x7d"
  , "bool operator==(const A & a, const A & b) \x7b return true; \x7d" ]

/-- For each line, whether its tokens define a variable, and under which name. -/
def variablesOf (lines : List String) : List (Bool × Option String) :=
  lines.map fun l => (isVariableDefinition (lexLine l.data), declaredName (lexLine l.data))

/-! ## Checks of the front end -/

set_option maxRecDepth 100000

/-- The shim has six comments and 477 characters, as the file has bytes. -/
theorem shim_text :
    (textOf llama_wrapper_cpp).length = 477 ∧
      countComments .code (textOf llama_wrapper_cpp) = 6 := by
  decide

/-- Without its comments the shim is the include line and the two lines of the
linkage block. -/
theorem shim_elements :
    elements llama_wrapper_cpp =
      [ .directive includeLlamaH, .token (.word "extern"), .token (.lit "C"),
        .token (.punct '{'), .token (.punct '}') ] := by
  decide

/-- The items of the shim. -/
theorem shim_items :
    parseFile llama_wrapper_cpp = some [.directive includeLlamaH, .block externC []] := by
  rfl

/-- Variables are found behind parentheses, attributes and class bodies, and
prototypes, typedefs, `extern` declarations and function definitions are not
taken for variables. -/
theorem probe_variables :
    variablesOf variableForms =
        [ (true, some "foo"), (true, some "n"), (true, some "fp"), (true, some "fp"),
          (true, some "buf"), (true, some "x"), (true, some "s"), (true, some "x"),
          (true, some "cb") ] ∧
      variablesOf otherForms =
        [ (false, some "f"), (false, some "g"), (false, some "h"), (false, some "e"),
          (false, some "T"), (false, some "cb"), (false, some "std"), (false, none),
          (false, some "add"), (false, some "operator") ] := by
  constructor <;> rfl

/-- On the probe text the analyses find the functions, the types, the
variables, the symbols and the calls. -/
theorem probe_definitions :
    (parseFile probeText).map (fun tu =>
        ( (functionDefinitions tu).map (fun d => declaredName d.toks)
        , (typeDefinitions tu).map (fun d => typeName d.toks)
        , (variableDefinitions tu).map (fun d => declaredName d.toks)
        , definedSymbols tu
        , callExpressions tu
        , headerUses ["llama_n_ctx", "llama_context", "llama_supports_mmap", "llama_free"] tu ))
      = some
        ( [some "wrapper_n_ctx", some "id"]
        , [some "wrapper", some "wrapper_state"]
        , [ some "wrapper_calls", some "wrapper_n_ctx_at_load", some "last", some "ready"
          , some "wrapper_abi" ]
        , [ "wrapper_n_ctx", "id", "wrapper_calls", "wrapper_n_ctx_at_load", "last", "ready"
          , "wrapper_abi" ]
        , ["llama_n_ctx", "llama_n_ctx", "llama_supports_mmap"]
        , ["llama_context", "llama_n_ctx", "llama_context", "llama_n_ctx",
           "llama_supports_mmap"] ) := by
  rfl

/-- On the probe text the functions and variables declared directly in the
linkage block have C linkage, but not the member of the class defined there,
nor the definition of that member, nor the declaration under a nested linkage
specification for C++; outside the block the linkage is C++, and a type, a
static or constant variable and a name in an unnamed namespace have no
language linkage. -/
theorem probe_linkage :
    (parseFile probeText).map (fun tu =>
        ( linkageBlocks tu
        , (declarations tu).map (fun d => (d.linkage, d.member, declaredName d.toks)) ))
      = some
        ( ["C"]
        , [ (some "C", false, some "wrapper_n_ctx"), (some "C", false, some "wrapper_calls")
          , (some "C", false, some "wrapper_free")
          , (some "C", false, some "wrapper_n_ctx_at_load")
          , (some "C", false, some "last"), (some "C++", true, some "id")
          , (some "C++", false, some "id"), (some "C++", false, some "wrapper_version")
          , (none, false, none), (some "C++", true, some "loaded")
          , (none, false, some "ready"), (none, false, some "wrapper_abi")
          , (none, false, some "hidden") ] ) := by
  rfl

/-- On the probe text loading runs the five variable definitions and calling
the wrapper runs its code: with a meaning of code that counts the tokens run,
the counts are 20 and 14, and a name that is not defined cannot be called. -/
theorem probe_runs :
    (parseFile probeText).map (fun tu =>
        ( load (fun c (n : Nat) => (Except.ok (n + c.length) : Except Unit Nat)) tu 0
        , call (fun c (n : Nat) => (Except.ok (n + c.length) : Except Unit Nat)) tu
            "wrapper_n_ctx" 0
        , call (fun c (n : Nat) => (Except.ok (n + c.length) : Except Unit Nat)) tu
            "wrapper_free" 0 ))
      = some (.ok 20, some (.ok 14), none) := by
  rfl

/-- A line placed in the block of the shim's text becomes a declaration in the
block of the shim's items. -/
theorem shim_with_line :
    parseFile (shimWithLines ["    int wrapper_version(void);"])
        = some (shimWith [wrapperVersion]) ∧
      parseFile (shimWithLines ["    extern \"C++\" int wrapper_version(void);"])
        = some (shimWith [wrapperVersionCxx]) ∧
      parseFile (shimWithLines []) = parseFile llama_wrapper_cpp := by
  refine ⟨rfl, rfl, rfl⟩

/-! ## Linkage in the block of the shim -/

/-- C2: the shim defines zero functions, zero types and zero state.  The file
parses and its items hold no declaration at all, neither at namespace scope
nor in a class; so the function definitions, the type definitions and the
variable definitions are all empty, and so is the list of names the shim
defines, which is the list of symbols the shim itself can add to the shared
library. -/
theorem shim_defines_nothing :
    ∃ tu, parseFile llama_wrapper_cpp = some tu ∧
      declarations tu = [] ∧
      functionDefinitions tu = [] ∧ typeDefinitions tu = [] ∧
      variableDefinitions tu = [] ∧ definedSymbols tu = [] :=
  ⟨[.directive includeLlamaH, .block externC []], rfl, rfl, rfl, rfl, rfl, rfl⟩

/-- C4: the shim invokes no function and references no identifier declared by
the header of the wrapped library.  The file parses, its items hold no call
expression and use no identifier at all, so whatever names the header declares
(the header is not part of the repository, its names are a parameter), none of
them is used. -/
theorem shim_uses_no_header_symbol :
    ∃ tu, parseFile llama_wrapper_cpp = some tu ∧
      callExpressions tu = [] ∧ usedIdentifiers tu = [] ∧
      ∀ header : List String, headerUses header tu = [] :=
  ⟨[.directive includeLlamaH, .block externC []], rfl, rfl, rfl, fun _ => rfl⟩

/-- C5: the shim has no runtime behaviour.  The file parses and its items hold
no declaration, hence no function body and no variable to initialize: there is
no executable code.  Whatever the meaning `exec` of code is, loading the
library runs nothing of the shim and ends without error in the state it
started in, and there is no function of the shim to call, under any name, so
none that could raise or return an error. -/
theorem shim_has_no_runtime_behaviour :
    ∃ tu, parseFile llama_wrapper_cpp = some tu ∧
      declarations tu = [] ∧
      executableCode tu = [] ∧ operations tu = [] ∧ loadTimeCode tu = [] ∧
      (∀ (σ ε : Type) (exec : List Token → σ → Except ε σ) (s : σ),
        load exec tu s = .ok s) ∧
      (∀ (σ ε : Type) (exec : List Token → σ → Except ε σ) (name : String) (s : σ),
        call exec tu name s = none) :=
  ⟨[.directive includeLlamaH, .block externC []], rfl, rfl, rfl, rfl, rfl,
    fun _ _ _ _ => rfl, fun _ _ _ _ _ => rfl⟩

/-- C7, as stated, fails: it is not the case that the file has ten lines and
that, apart from comments, its only construct is one empty linkage block for C.
The file also holds the include directive on its third line. -/
theorem shim_is_not_only_a_block :
    ¬ (llama_wrapper_cpp.length = 10 ∧
        parseFile llama_wrapper_cpp = some [.block externC []]) := by
  intro h
  have items : parseFile llama_wrapper_cpp
      = some [.directive includeLlamaH, .block externC []] := rfl
  have both := items.symm.trans h.2
  simp at both

/-- C7, amended: the source is one file of ten lines, six comments among them,
and apart from comments its only constructs are the include directive for
llama.h and, after it, one linkage block for C that holds no declaration. -/
theorem shim_is_include_and_empty_block :
    llama_wrapper_cpp.length = 10 ∧
      countComments .code (textOf llama_wrapper_cpp) = 6 ∧
      parseFile llama_wrapper_cpp = some [.directive includeLlamaH, .block externC []] ∧
      includePath includeLlamaH = some "llama.cpp/include/llama.h" ∧
      declarations [.block externC []] = [] :=
  ⟨rfl, by decide, rfl, rfl, rfl⟩

end LlamaWrapper
